import Mathlib

/-!
Verification of the recurrence/completion engine of the `life_helper`
task-reminder bot (`app/services/crud.py`, `app/enums/frequency.py`,
`app/models/models.py`, `app/bot.py`) against its natural-language
specification.

Timestamps are modelled as seconds since the Unix epoch (`Int`), the
calendar date of a timestamp being its floor-division by 86400, exactly
as the Python UTC `datetime` arithmetic behaves for the operations the code
performs (date comparison, day differences, `timedelta(days=n)`).
Python attribute lookup on the `Frequency` enum class is modelled by
`Frequency.fromName` / `pyAttr`: looking up a name that is not a member
raises `AttributeError`, which the `Except PyErr` monad captures.
-/

namespace App

/-- Members of the `Frequency` enum exactly as declared in
`app/enums/frequency.py` (EVERYDAY = 1, EVERY_TWO_DAYS = 2,
EVERY_THREE_DAYS = 3, WEEKLY = 7, MONTHLY = 30, EVERY_TWO_MONTH = 60,
EVERY_THREE_MONTH = 90, EVERY_HALF_YEAR = 180). -/
inductive Frequency where
  | EVERYDAY
  | EVERY_TWO_DAYS
  | EVERY_THREE_DAYS
  | WEEKLY
  | MONTHLY
  | EVERY_TWO_MONTH
  | EVERY_THREE_MONTH
  | EVERY_HALF_YEAR
deriving DecidableEq, Repr

/-- Python attribute lookup on the `Frequency` enum class: returns the
member for one of the eight declared names, and `none` (an
`AttributeError` at runtime) for any other name. -/
def Frequency.fromName (s : String) : Option Frequency :=
  if s = "EVERYDAY" then some .EVERYDAY
  else if s = "EVERY_TWO_DAYS" then some .EVERY_TWO_DAYS
  else if s = "EVERY_THREE_DAYS" then some .EVERY_THREE_DAYS
  else if s = "WEEKLY" then some .WEEKLY
  else if s = "MONTHLY" then some .MONTHLY
  else if s = "EVERY_TWO_MONTH" then some .EVERY_TWO_MONTH
  else if s = "EVERY_THREE_MONTH" then some .EVERY_THREE_MONTH
  else if s = "EVERY_HALF_YEAR" then some .EVERY_HALF_YEAR
  else none

/-- Runtime errors of the embedded Python fragments. -/
inductive PyErr where
  | attributeError (name : String)
  | typeError (msg : String)
deriving DecidableEq, Repr

-- Decidable equality for Except, so that runs of the embedded
-- fallible operations can be checked by evaluation.
deriving instance DecidableEq for Except

/-- Evaluating `Frequency.<name>` in Python: a member when the name is
declared, `AttributeError` otherwise. -/
def pyAttr (name : String) : Except PyErr Frequency :=
  match Frequency.fromName name with
  | some f => .ok f
  | none => .error (.attributeError name)

/-- Calendar date of a UTC timestamp, as a day number (floor of seconds
by 86400), mirroring `datetime.date()` for comparison purposes. -/
def dateOf (t : Int) : Int := t / 86400

/-- Python `datetime.weekday()`: Monday is 0, Sunday is 6.
1970-01-01 (day 0) was a Thursday, hence the offset 3. -/
def pyWeekday (t : Int) : Int := (dateOf t + 3) % 7

/-- SQLite strftime weekday number (format %w): Sunday is 0, Saturday is 6. -/
def sqliteWeekday (t : Int) : Int := (dateOf t + 4) % 7

/-- Uppercased strftime weekday abbreviation (format %a), indexed by the
Python weekday number. -/
def weekdayAbbr (w : Int) : String :=
  if w = 0 then "MON" else if w = 1 then "TUE" else if w = 2 then "WED"
  else if w = 3 then "THU" else if w = 4 then "FRI" else if w = 5 then "SAT"
  else "SUN"

/-- Civil (year, month, day-of-month) of a day number, via the standard
Gregorian conversion (days counted from 1970-01-01). -/
def civilFromDays (z0 : Int) : Int × Int × Int :=
  let z := z0 + 719468
  let era := (if 0 ≤ z then z else z - 146096) / 146097
  let doe := z - era * 146097
  let yoe := (doe - doe / 1460 + doe / 36524 - doe / 146096) / 365
  let y := yoe + era * 400
  let doy := doe - (365 * yoe + yoe / 4 - yoe / 100)
  let mp := (5 * doy + 2) / 153
  let d := doy - (153 * mp + 2) / 5 + 1
  let m := if mp < 10 then mp + 3 else mp - 9
  (if m ≤ 2 then y + 1 else y, m, d)

/-- Day-of-month of a timestamp (`datetime.day`, SQLite strftime format %d). -/
def dayOfMonthOf (t : Int) : Int := (civilFromDays (dateOf t)).2.2

/-- Month of a timestamp (`datetime.month`). -/
def monthOf (t : Int) : Int := (civilFromDays (dateOf t)).2.1

/-- Year of a timestamp (`datetime.year`). -/
def yearOf (t : Int) : Int := (civilFromDays (dateOf t)).1

/-- SQL LIKE substring containment used by `Task.days_of_week.contains(...)`. -/
def sqlContains (s sub : String) : Bool := (s.splitOn sub).length ≠ 1

/-- Row of the `users` table (`app/models/models.py`). -/
structure User where
  id : Int
  telegram_id : Int
  last_notified : Option Int := none
  user_points : Int := 0
deriving DecidableEq, Repr

/-- Row of the `tasks` table (`app/models/models.py`). -/
structure Task where
  id : Int
  user_id : Int
  title : String
  completed : Bool := false
  created_at : Int
  frequency : Frequency
  days_of_week : Option String := none
  last_completed : Option Int := none
  reminder_time : Option Int := none
  points : Int := 0
deriving DecidableEq, Repr

/-- Row of the `task_completions` table (`app/models/models.py`). -/
structure TaskCompletion where
  id : Int
  task_id : Int
  completed_at : Int
deriving DecidableEq, Repr

/-- Database state: the three tables the engine touches. -/
structure DB where
  users : List User
  tasks : List Task
  completions : List TaskCompletion
deriving DecidableEq, Repr

/-- CRUD `create_user`. -/
def create_user (db : DB) (telegram_id : Int) : DB × User :=
  let db_user : User := { id := Int.ofNat db.users.length, telegram_id := telegram_id }
  ({ db with users := db.users ++ [db_user] }, db_user)

/-- CRUD `get_user_by_telegram_id`. -/
def get_user_by_telegram_id (db : DB) (telegram_id : Int) : Option User :=
  db.users.find? (fun u => u.telegram_id == telegram_id)

/-- Keyword parameters accepted by `create_task` in
`app/services/crud.py` (line 27): `db`, `user_id`, `title`, `frequency`
and the optional `days_of_week`; nothing else. -/
def create_task_params : List String :=
  ["db", "user_id", "title", "frequency", "days_of_week"]

/-- CRUD `create_task`: persists a task with the column defaults of the model
(`completed = False`, `created_at = utcnow`, `last_completed = NULL`,
`reminder_time = NULL`, `points = 0`). -/
def create_task (db : DB) (user_id : Int) (title : String) (frequency : Frequency)
    (days_of_week : Option String) (now : Int) : DB × Task :=
  let db_task : Task :=
    { id := Int.ofNat db.tasks.length, user_id := user_id, title := title,
      created_at := now, frequency := frequency, days_of_week := days_of_week }
  ({ db with tasks := db.tasks ++ [db_task] }, db_task)

/-- Python call semantics for `create_task`: a call that passes any
keyword argument whose name is not among `create_task_params` raises
`TypeError` before the function body runs; otherwise the call proceeds.
`kwarg_names` are the names of the extra keyword arguments the caller
supplies beyond the positional ones. -/
def call_create_task (db : DB) (user_id : Int) (title : String) (frequency : Frequency)
    (days_of_week : Option String) (kwarg_names : List String) (now : Int) :
    Except PyErr (DB × Task) :=
  match kwarg_names.find? (fun k => !(create_task_params.contains k)) with
  | some k => .error (.typeError ("create_task() got an unexpected keyword argument " ++ k))
  | none => .ok (create_task db user_id title frequency days_of_week now)

/-- Most recent element of a list of completion rows (the `ORDER BY
completed_at DESC ... first()` of the query in
`get_task_completion_for_day`). -/
def latestCompletion : List TaskCompletion → Option TaskCompletion
  | [] => none
  | c :: cs =>
    match latestCompletion cs with
    | none => some c
    | some b => if b.completed_at < c.completed_at then some c else some b

/-- CRUD `get_task_completion_for_day`: the most recent completion row
of the task whose timestamp falls on the calendar day of the target timestamp. -/
def get_task_completion_for_day (db : DB) (task_id : Int) (target : Int) :
    Option TaskCompletion :=
  latestCompletion (db.completions.filter
    (fun c => c.task_id == task_id && dateOf c.completed_at == dateOf target))

/-- CRUD `is_task_completed_today`. -/
def is_task_completed_today (db : DB) (task : Task) (now : Int) : Bool :=
  (get_task_completion_for_day db task.id now).isSome

/-- CRUD `complete_task`: looks the task up by id; when found, inserts a
completion row stamped `utcnow` and sets the task field `last_completed` to
that timestamp. The cached `completed` flag is not assigned anywhere in
the function body. -/
def complete_task (db : DB) (task_id : Int) (now : Int) : DB × Option Task :=
  match db.tasks.find? (fun t => t.id == task_id) with
  | none => (db, none)
  | some task =>
    let completion : TaskCompletion :=
      { id := Int.ofNat db.completions.length, task_id := task.id, completed_at := now }
    let task' := { task with last_completed := some now }
    ({ db with
        tasks := db.tasks.map (fun t => if t.id == task_id then task' else t),
        completions := db.completions ++ [completion] },
     some task')

/-- CRUD `delete_old_completions`: deletes every completion row strictly
older than `utcnow - timedelta(days = days_to_keep)` and returns the
number of deleted rows. -/
def delete_old_completions (db : DB) (days_to_keep : Int) (now : Int) : DB × Nat :=
  let cutoff_date := now - days_to_keep * 86400
  let deleted := db.completions.filter (fun c => decide (c.completed_at < cutoff_date))
  ({ db with
      completions := db.completions.filter (fun c => !decide (c.completed_at < cutoff_date)) },
   deleted.length)

/-- CRUD `get_tasks_due_today` (`app/services/crud.py` lines 39-82).
The locals are computed first; then the `or_` arguments of the query are
evaluated left to right, each evaluating a `Frequency.<member>`
attribute access, before the filter runs; finally the `completed`
attribute of every returned task is set from `is_task_completed_today`. -/
def get_tasks_due_today (db : DB) (user_id : Int) (now : Int) :
    Except PyErr (List Task) := do
  let today_weekday_abbr := weekdayAbbr (pyWeekday now)
  let today_day_of_month := dayOfMonthOf now
  let adjusted_weekday := (pyWeekday now + 1) % 7
  let fEVERYDAY ← pyAttr "EVERYDAY"
  let fSPECIFIC_DAYS ← pyAttr "SPECIFIC_DAYS"
  let fWEEKLY ← pyAttr "WEEKLY"
  let fMONTHLY ← pyAttr "MONTHLY"
  let tasks := db.tasks.filter (fun t =>
    t.user_id == user_id &&
    (t.frequency == fEVERYDAY ||
     (t.frequency == fSPECIFIC_DAYS && t.days_of_week.isSome &&
      sqlContains (t.days_of_week.getD "") today_weekday_abbr) ||
     (t.frequency == fWEEKLY && sqliteWeekday t.created_at == adjusted_weekday) ||
     (t.frequency == fMONTHLY && dayOfMonthOf t.created_at == today_day_of_month)))
  .ok (tasks.map (fun t => { t with completed := is_task_completed_today db t now }))

/-- Per-task body of the `reset_recurring_tasks` loop: decides
`should_reset`, evaluating the `Frequency.<member>` accesses of the
`if`/`elif` chain in source order as each branch is reached. -/
def should_reset (t : Task) (today : Int) : Except PyErr Bool := do
  match t.last_completed with
  | none => .ok true
  | some lc =>
    let last_completed_date := dateOf lc
    let fEVERYDAY ← pyAttr "EVERYDAY"
    if t.frequency == fEVERYDAY then
      .ok (decide (last_completed_date < today))
    else do
      let fWEEKLY ← pyAttr "WEEKLY"
      if t.frequency == fWEEKLY then
        .ok (decide (7 ≤ today - last_completed_date))
      else do
        let fMONTHLY ← pyAttr "MONTHLY"
        if t.frequency == fMONTHLY then
          .ok (monthOf lc ≠ monthOf (today * 86400) || yearOf lc ≠ yearOf (today * 86400))
        else do
          let fSPECIFIC_DAYS ← pyAttr "SPECIFIC_DAYS"
          if t.frequency == fSPECIFIC_DAYS then
            if last_completed_date < today then
              let today_abbr := weekdayAbbr ((today + 3) % 7)
              .ok (match t.days_of_week with
                   | some s => (s.splitOn ",").contains today_abbr
                   | none => false)
            else .ok false
          else .ok false

/-- CRUD `reset_recurring_tasks` (`app/services/crud.py` lines 144-202).
Building the candidate query evaluates `Frequency.ONCE`; the loop then
clears the `completed` flag of every candidate whose `should_reset`
holds and returns how many were reset. -/
def reset_recurring_tasks (db : DB) (now : Int) : Except PyErr (DB × Nat) := do
  let fONCE ← pyAttr "ONCE"
  let candidates := db.tasks.filter (fun t => t.completed && t.frequency != fONCE)
  let today := dateOf now
  let flags ← candidates.mapM (fun t => do
    let r ← should_reset t today
    pure (t.id, r))
  let resetIds := (flags.filter (fun p => p.2)).map (fun p => p.1)
  let db' := { db with
    tasks := db.tasks.map (fun t =>
      if resetIds.contains t.id then { t with completed := false } else t) }
  .ok (db', resetIds.length)

/-- Composition of two reset sweeps on the same reference date, as in the
idempotence property of the spec. -/
def reset_twice (db : DB) (now : Int) : Except PyErr (DB × Nat) := do
  let p ← reset_recurring_tasks db now
  reset_recurring_tasks p.1 now

/-- Outcome of the `/done` command flow in `app/bot.py`. -/
inductive DoneResult where
  | notRegistered
  | notFound
  | alreadyDone
  | completedOk (t : Task)
deriving DecidableEq, Repr

/-- Command flow of `/done` (`app/bot.py` lines 676-698): look the user
up, find the task among those owned by the user, report already-done without
touching the ledger when the task is already completed today, and only
otherwise call `complete_task`. -/
def done_command (db : DB) (telegram_id task_id : Int) (now : Int) : DB × DoneResult :=
  match get_user_by_telegram_id db telegram_id with
  | none => (db, .notRegistered)
  | some user =>
    match db.tasks.find? (fun t => t.id == task_id && t.user_id == user.id) with
    | none => (db, .notFound)
    | some task =>
      if is_task_completed_today db task now then (db, .alreadyDone)
      else
        match complete_task db task_id now with
        | (db', some t) => (db', .completedOk t)
        | (db', none) => (db', .notFound)

/-- Task used by the concrete inputs of the C2 development. -/
def taskC2 : Task :=
  { id := 1, user_id := 1, title := "Daily Task", created_at := 0, frequency := .EVERYDAY }

/-- Database used by the concrete inputs of the C2 development: one
registered user owning one not-yet-completed everyday task. -/
def dbC2 : DB :=
  { users := [{ id := 1, telegram_id := 12345 }], tasks := [taskC2], completions := [] }

/-- Database used by the concrete input of the C4 theorem: one user with
one task, queried for the tasks due today. -/
def dbC4 : DB :=
  { users := [{ id := 1, telegram_id := 7 }],
    tasks := [{ id := 1, user_id := 1, title := "Pay deposit", created_at := 0,
                frequency := .EVERYDAY }],
    completions := [] }

/-- Task used by the concrete inputs of the C7 witness. -/
def taskC7 : Task :=
  { id := 3, user_id := 1, title := "Water plants", created_at := 1000, frequency := .WEEKLY }

/-- Database used by the concrete inputs of the C7 witness. -/
def dbC7 : DB :=
  { users := [{ id := 1, telegram_id := 9 }], tasks := [taskC7], completions := [] }

/-- User used by the concrete inputs of the C8 witness. -/
def userC8 : User := { id := 1, telegram_id := 2 }

/-- Task used by the concrete inputs of the C8 witness. -/
def taskC8 : Task :=
  { id := 1, user_id := 1, title := "Daily habit", created_at := 0, frequency := .EVERYDAY }

/-- Database used by the concrete inputs of the C8 witness: the task
already has a completion row recorded earlier on the same calendar day
(second 90000 and second 100000 both fall on day 1). -/
def dbC8 : DB :=
  { users := [userC8], tasks := [taskC8],
    completions := [{ id := 0, task_id := 1, completed_at := 90000 }] }

/-- Database used by the concrete inputs of the C10 witness. -/
def dbC10 : DB :=
  { users := [{ id := 1, telegram_id := 100 }], tasks := [], completions := [] }

/-- Helper: `latestCompletion` of a non-empty list of rows is some row
(the DESC-ordered query of a non-empty result set has a first element). -/
theorem latestCompletion_isSome (l : List TaskCompletion) (h : l ≠ []) :
    (latestCompletion l).isSome = true := by
  cases l with
  | nil => exact absurd rfl h
  | cons c cs =>
    unfold latestCompletion
    cases latestCompletion cs with
    | none => rfl
    | some b =>
      by_cases hb : b.completed_at < c.completed_at <;> simp [hb]

/-- Helper: when the task lookup succeeds, `complete_task` appends
exactly one completion row, stamped with the current time and the id of
the found task. -/
theorem complete_task_completions (db : DB) (tid : Int) (u : Task) (now : Int)
    (h : db.tasks.find? (fun x => x.id == tid) = some u) :
    (complete_task db tid now).1.completions =
      db.completions ++
        [{ id := Int.ofNat db.completions.length, task_id := u.id, completed_at := now }] := by
  unfold complete_task
  rw [h]

/-- Helper: after `complete_task` on an existing task id, any task with
that id is reported completed today. -/
theorem completed_today_after_complete (db : DB) (tid : Int) (t : Task) (now : Int)
    (h : (db.tasks.find? (fun x => x.id == tid)).isSome) (hid : t.id = tid) :
    is_task_completed_today (complete_task db tid now).1 t now = true := by
  obtain ⟨u, hu⟩ := Option.isSome_iff_exists.mp h
  have huid : u.id = tid := by
    have := List.find?_some hu
    simpa [beq_iff_eq] using this
  unfold is_task_completed_today get_task_completion_for_day
  rw [complete_task_completions db tid u now hu, List.filter_append]
  have hfilter :
      List.filter (fun c : TaskCompletion => c.task_id == t.id && dateOf c.completed_at == dateOf now)
        [({ id := Int.ofNat db.completions.length, task_id := u.id, completed_at := now } :
          TaskCompletion)] =
        [({ id := Int.ofNat db.completions.length, task_id := u.id, completed_at := now } :
          TaskCompletion)] := by
    simp [List.filter, huid, hid]
  rw [hfilter]
  exact latestCompletion_isSome _ (by simp)

/-- Claim C1: the spec says the frequency rule of a task is drawn from
exactly the closed set ONCE, EVERY_DAY, WEEKLY, MONTHLY,
SPECIFIC_WEEKDAYS and that the recurrence operations dispatch only on
members of that set. In the code the `Frequency` enum consists of the
eight members EVERYDAY, EVERY_TWO_DAYS, EVERY_THREE_DAYS, WEEKLY,
MONTHLY, EVERY_TWO_MONTH, EVERY_THREE_MONTH, EVERY_HALF_YEAR; the names
ONCE, SPECIFIC_DAYS, SPECIFIC_WEEKDAYS and EVERY_DAY are not members,
so the dispatches on `Frequency.ONCE` and `Frequency.SPECIFIC_DAYS` in
`reset_recurring_tasks` and `get_tasks_due_today` raise AttributeError. -/
theorem frequency_enum_lacks_once_and_specific_days :
    (∀ f : Frequency,
      f = .EVERYDAY ∨ f = .EVERY_TWO_DAYS ∨ f = .EVERY_THREE_DAYS ∨ f = .WEEKLY ∨
        f = .MONTHLY ∨ f = .EVERY_TWO_MONTH ∨ f = .EVERY_THREE_MONTH ∨
        f = .EVERY_HALF_YEAR) ∧
    Frequency.fromName "ONCE" = none ∧
    Frequency.fromName "SPECIFIC_DAYS" = none ∧
    Frequency.fromName "SPECIFIC_WEEKDAYS" = none ∧
    Frequency.fromName "EVERY_DAY" = none ∧
    pyAttr "ONCE" = .error (.attributeError "ONCE") ∧
    pyAttr "SPECIFIC_DAYS" = .error (.attributeError "SPECIFIC_DAYS") := by
  refine ⟨fun f => ?_, ?_, ?_, ?_, ?_, ?_, ?_⟩
  · cases f <;> simp
  all_goals decide

/-- Claim C2 counterexample: the claim says that after `complete_task`
the cached `completed` flag of the task is true. On a database holding
one not-yet-completed task, `complete_task` returns the task with
`last_completed` updated but `completed` still false, and appends the
completion row; the flag is never assigned. -/
theorem complete_task_flag_counterexample :
    (complete_task dbC2 1 86400).2.map Task.completed = some false ∧
    (complete_task dbC2 1 86400).2.map Task.last_completed = some (some 86400) ∧
    (complete_task dbC2 1 86400).1.completions =
      [{ id := 0, task_id := 1, completed_at := 86400 }] := by decide

/-- Claim C2 (amended): for every existing task, `complete_task` inserts
a completion record stamped with the current timestamp and updates the
cached `last_completed` of the task to that timestamp, but does not
modify the cached `completed` flag, which keeps its previous value. -/
theorem complete_task_inserts_and_updates_last_completed (db : DB) (tid : Int) (u : Task)
    (now : Int) (h : db.tasks.find? (fun x => x.id == tid) = some u) :
    (complete_task db tid now).2 = some { u with last_completed := some now } ∧
    (complete_task db tid now).1.completions =
      db.completions ++
        [{ id := Int.ofNat db.completions.length, task_id := u.id, completed_at := now }] ∧
    (complete_task db tid now).2.map Task.completed = some u.completed := by
  unfold complete_task
  rw [h]
  exact ⟨rfl, rfl, rfl⟩

/-- Witness for the amended C2 theorem at a concrete database. -/
theorem complete_task_inserts_and_updates_last_completed_witness :
    (complete_task dbC2 1 86400).2 = some { taskC2 with last_completed := some 86400 } ∧
    (complete_task dbC2 1 86400).1.completions =
      dbC2.completions ++
        [{ id := Int.ofNat dbC2.completions.length, task_id := taskC2.id,
           completed_at := 86400 }] ∧
    (complete_task dbC2 1 86400).2.map Task.completed = some taskC2.completed :=
  complete_task_inserts_and_updates_last_completed dbC2 1 taskC2 86400 (by decide)

/-- Claim C3: the spec states per-rule conditions under which
`reset_recurring_tasks` clears the completed flag. In the code, building
the candidate query evaluates `Frequency.ONCE`, which is not a member of
the enum, so every call of `reset_recurring_tasks` aborts with
AttributeError and never clears any flag. -/
theorem reset_recurring_tasks_always_raises (db : DB) (now : Int) :
    reset_recurring_tasks db now = .error (.attributeError "ONCE") := rfl

/-- Claim C4: the spec says a not-yet-completed ONCE task is returned by
`get_tasks_due_today` on every date. In the code ONCE is not a member of
the `Frequency` enum, so no ONCE task can exist, and the query of
`get_tasks_due_today` evaluates `Frequency.SPECIFIC_DAYS`, so the call
aborts with AttributeError instead of returning any task. -/
theorem once_missing_and_due_today_raises :
    Frequency.fromName "ONCE" = none ∧
    get_tasks_due_today dbC4 1 864000 = .error (.attributeError "SPECIFIC_DAYS") := by decide

/-- Claim C5: the spec says `get_tasks_due_today` includes a WEEKLY task
exactly when the reference weekday equals the weekday of its creation
timestamp. In the code every call of `get_tasks_due_today`, for every
database, user and date, aborts with AttributeError while evaluating
`Frequency.SPECIFIC_DAYS`, so no WEEKLY task is ever returned. -/
theorem get_tasks_due_today_always_raises (db : DB) (user_id now : Int) :
    get_tasks_due_today db user_id now = .error (.attributeError "SPECIFIC_DAYS") := rfl

/-- Claim C6: the spec says running the reset sweep twice on the same
reference date resets 0 tasks the second time. In the code both runs
abort with AttributeError, so the composed double sweep returns no
count at all: it evaluates to the AttributeError of the first run. -/
theorem reset_twice_never_returns (db : DB) (now : Int) :
    reset_twice db now = .error (.attributeError "ONCE") := rfl

/-- Claim C7: completing an existing task and immediately asking
`is_task_completed_today` on the same calendar day returns true: the
inserted completion row is stamped with the current timestamp, whose
date part matches the reference date. -/
theorem complete_then_satisfied_today (db : DB) (t : Task) (now : Int) (h : t ∈ db.tasks) :
    is_task_completed_today (complete_task db t.id now).1 t now = true := by
  have hfind : (db.tasks.find? (fun x => x.id == t.id)).isSome :=
    List.find?_isSome.mpr ⟨t, h, by simp⟩
  exact completed_today_after_complete db t.id t now hfind rfl

/-- Witness for the C7 theorem at a concrete database. -/
theorem complete_then_satisfied_today_witness :
    taskC7 ∈ dbC7.tasks ∧
    is_task_completed_today (complete_task dbC7 taskC7.id 50000).1 taskC7 50000 = true :=
  ⟨by decide, complete_then_satisfied_today dbC7 taskC7 50000 (by decide)⟩

/-- Claim C8: marking complete a task already satisfied today is not an
error: the done flow replies already-done and leaves the database
untouched, and a direct second same-day `complete_task` call only adds
one redundant ledger row while `is_task_completed_today` stays true. -/
theorem done_flow_already_satisfied (db : DB) (tg tid now : Int) (user : User) (task : Task)
    (hu : get_user_by_telegram_id db tg = some user)
    (ht : db.tasks.find? (fun t => t.id == tid && t.user_id == user.id) = some task)
    (hc : is_task_completed_today db task now = true) :
    done_command db tg tid now = (db, .alreadyDone) ∧
    (complete_task db tid now).1.completions.length = db.completions.length + 1 ∧
    is_task_completed_today (complete_task db tid now).1 task now = true := by
  have hp := List.find?_some ht
  have hmem := List.mem_of_find?_eq_some ht
  rw [Bool.and_eq_true] at hp
  have hid : (task.id == tid) = true := hp.1
  have hfind : (db.tasks.find? (fun x => x.id == tid)).isSome :=
    List.find?_isSome.mpr ⟨task, hmem, hid⟩
  obtain ⟨u, hu2⟩ := Option.isSome_iff_exists.mp hfind
  refine ⟨?_, ?_, ?_⟩
  · simp [done_command, hu, ht, hc]
  · rw [complete_task_completions db tid u now hu2]
    simp
  · exact completed_today_after_complete db tid task now hfind (beq_iff_eq.mp hid)

/-- Witness for the C8 theorem at a concrete database. -/
theorem done_flow_already_satisfied_witness :
    get_user_by_telegram_id dbC8 2 = some userC8 ∧
    dbC8.tasks.find? (fun t => t.id == 1 && t.user_id == userC8.id) = some taskC8 ∧
    is_task_completed_today dbC8 taskC8 100000 = true ∧
    (done_command dbC8 2 1 100000 = (dbC8, .alreadyDone) ∧
     (complete_task dbC8 1 100000).1.completions.length = dbC8.completions.length + 1 ∧
     is_task_completed_today (complete_task dbC8 1 100000).1 taskC8 100000 = true) :=
  ⟨by decide, by decide, by decide,
   done_flow_already_satisfied dbC8 2 1 100000 userC8 taskC8 (by decide) (by decide) (by decide)⟩

/-- Claim C9: `delete_old_completions` deletes exactly the completion
rows strictly older than the cutoff now minus the retention span,
returns their count, and leaves the users and tasks tables unchanged;
with retention 0 the cutoff is now itself, so exactly the completions
recorded at past instants are removed. -/
theorem delete_old_completions_frame_and_count (db : DB) (days_to_keep now : Int) :
    (delete_old_completions db days_to_keep now).1.users = db.users ∧
    (delete_old_completions db days_to_keep now).1.tasks = db.tasks ∧
    (∀ c : TaskCompletion,
      c ∈ (delete_old_completions db days_to_keep now).1.completions ↔
        c ∈ db.completions ∧ ¬(c.completed_at < now - days_to_keep * 86400)) ∧
    (delete_old_completions db days_to_keep now).2 =
      (db.completions.filter
        (fun c => decide (c.completed_at < now - days_to_keep * 86400))).length ∧
    (∀ c : TaskCompletion,
      c ∈ (delete_old_completions db 0 now).1.completions ↔
        c ∈ db.completions ∧ ¬(c.completed_at < now)) := by
  refine ⟨rfl, rfl, fun c => ?_, rfl, fun c => ?_⟩
  · simp [delete_old_completions, List.mem_filter]
  · simp [delete_old_completions, List.mem_filter]

/-- Claim C10: `create_task` accepts only the parameters db, user_id,
title, frequency and days_of_week; a call passing a reminder_time or
points keyword argument, as the bot flow and the test suite do, raises
TypeError, and a task persisted through this interface always has no
reminder time and zero points. -/
theorem create_task_rejects_reminder_and_points (db : DB) (user_id : Int) (title : String)
    (frequency : Frequency) (days_of_week : Option String) (kwarg_names : List String)
    (now : Int) (h : "reminder_time" ∈ kwarg_names ∨ "points" ∈ kwarg_names) :
    create_task_params = ["db", "user_id", "title", "frequency", "days_of_week"] ∧
    (∃ msg, call_create_task db user_id title frequency days_of_week kwarg_names now =
      .error (.typeError msg)) ∧
    (create_task db user_id title frequency days_of_week now).2.reminder_time = none ∧
    (create_task db user_id title frequency days_of_week now).2.points = 0 := by
  refine ⟨rfl, ?_, rfl, rfl⟩
  have hk : (kwarg_names.find? (fun k => !(create_task_params.contains k))).isSome := by
    rcases h with h | h
    · exact List.find?_isSome.mpr ⟨"reminder_time", h, by decide⟩
    · exact List.find?_isSome.mpr ⟨"points", h, by decide⟩
  obtain ⟨k, hk2⟩ := Option.isSome_iff_exists.mp hk
  refine ⟨"create_task() got an unexpected keyword argument " ++ k, ?_⟩
  unfold call_create_task
  rw [hk2]

/-- Witness for the C10 theorem at the keyword arguments the bot
task-creation flow passes. -/
theorem create_task_rejects_reminder_and_points_witness :
    create_task_params = ["db", "user_id", "title", "frequency", "days_of_week"] ∧
    (∃ msg, call_create_task dbC10 1 "Task with reminder" .EVERYDAY none
      ["reminder_time", "points"] 0 = .error (.typeError msg)) ∧
    (create_task dbC10 1 "Task with reminder" .EVERYDAY none 0).2.reminder_time = none ∧
    (create_task dbC10 1 "Task with reminder" .EVERYDAY none 0).2.points = 0 :=
  create_task_rejects_reminder_and_points dbC10 1 "Task with reminder" .EVERYDAY none
    ["reminder_time", "points"] 0 (Or.inl (by decide))

end App
